import Mathlib

/-!
Verification of the Wrye Bash record-merge engine against a shallow embedding.

The definitions below are translated from the Python sources:
* `Mopy/bash/patcher/patchers/preservers.py` (`_APreserver`): the preserver
  (importer) engine — `_init_data_loop`, `initData`, `_inner_loop`,
  `_process_csv_sources`.
* `Mopy/bash/patcher/patchers/multitweak_assorted.py`
  (`AAssortedTweak_PotionWeight` / `AssortedTweak_PotionWeight`).
* `Mopy/bash/patcher/patchers/multitweak_clothes.py`
  (`ClothesTweak.isMyType`, `ClothesTweak_MaxWeight.buildPatch`).
* `Mopy/bash/patcher/patchers/races_multitweaks.py` (`RacePatcher.initData`
  and the eye-mesh filtering / NPC-default part of `RacePatcher.buildPatch`).

Python dicts are embedded as association lists with insert-or-replace update,
record attribute access as lookup in an association list of (name, value)
pairs, and exceptions as `Except`.  Machine floats are embedded as rationals.
-/

set_option maxHeartbeats 1000000

namespace WryeBash

/-- A long FormID: the owning plugin (by numeric key) and the object index. -/
structure FormID where
  modKey : Nat
  objIx : Nat
deriving DecidableEq, Repr

/-- An attribute value.  `vfid` is a FormID-valued attribute after long-fid
conversion: `none` is a Python-falsy value, otherwise the owning plugin
(`none` when unresolved) and the object index. -/
inductive Val where
  | vint : Int → Val
  | vstr : String → Val
  | vfid : Option (Option Nat × Nat) → Val
deriving DecidableEq, Repr

/-- A record: its long FormID and its named attributes. -/
structure Rec where
  fid : FormID
  attrs : List (String × Val)
deriving DecidableEq, Repr

/-- Attribute access (`attrgetter(a)(record)`); `none` models the
`AttributeError` raised when the record lacks the attribute. -/
def getAttr? (r : Rec) (a : String) : Option Val :=
  (r.attrs.find? (fun p => p.1 == a)).map (·.2)

/-- Insert-or-replace for an association list, the embedding of `d[k] = v`:
replaces in place, appends fresh keys (dict insertion order). -/
def alistSet {κ ν : Type} [BEq κ] : List (κ × ν) → κ → ν → List (κ × ν)
  | [], k, v => [(k, v)]
  | (k', v') :: rest, k, v =>
    if k' == k then (k, v) :: rest else (k', v') :: alistSet rest k v

/-- Lookup in an association list (`d.get(k)` / `d[k]`). -/
def alistGet? {κ ν : Type} [BEq κ] (m : List (κ × ν)) (k : κ) : Option ν :=
  (m.find? (fun p => p.1 == k)).map (·.2)

/-- Per-record attribute dictionaries, keyed by attribute name. -/
abbrev AttrMap := List (String × Val)

/-- The persistent delta map `self.id_data`: (attribute → value) dicts keyed
by long fid (`defaultdict(dict)`). -/
abbrev IdData := List (FormID × AttrMap)

/-- The embedding of `id_data[fid][attr] = value` on a `defaultdict(dict)`. -/
def idSetAttr (d : IdData) (f : FormID) (a : String) (v : Val) : IdData :=
  alistSet d f (alistSet ((alistGet? d f).getD []) a v)

/-- Lookup of a single (FormID, attribute) pair in the delta map. -/
def idGetAttr? (d : IdData) (f : FormID) (a : String) : Option Val :=
  (alistGet? d f).bind (fun m => alistGet? m a)

/-- The embedding of `dict.update`: per-key replacement of the whole stored
value (for `id_data` that value is the entire per-FormID attribute dict). -/
def dictUpdate (d : IdData) (t : IdData) : IdData :=
  t.foldl (fun acc p => alistSet acc p.1 p.2) d

/-! ### `_APreserver._init_data_loop` (preservers.py:161-189) -/

/-- The missing-file test on one captured FormID-valued attribute, mirroring
`f and (f[0] is None or f[0] not in loaded_mods)`: a Python-falsy value
(`vfid none`) fails the `f and` guard and is not treated as a bad reference. -/
def badRef (loaded : List Nat) : Option Val → Bool
  | some (.vfid (some (owner, _))) =>
    match owner with
    | none => true
    | some m => !(loaded.contains m)
  | _ => false

/-- State of one source scan: the per-plugin `temp_id_data` and the
per-source entry of `patcher_mod_skipcount`. -/
structure ScanState where
  temp : IdData
  skips : Nat
deriving DecidableEq, Repr

/-- One iteration of the record loop in `_init_data_loop`: check the FormID
attributes against the load order, then capture `{attr: value}` into
`temp_id_data` keyed by long fid. -/
def scanRecord (loaded : List Nat) (fidAttrs recAttrs : List String)
    (st : ScanState) (r : Rec) : ScanState :=
  if (fidAttrs.map (getAttr? r)).any (badRef loaded) then
    { st with skips := st.skips + 1 }
  else
    let captured := recAttrs.filterMap fun a => (getAttr? r a).map (fun v => (a, v))
    { st with temp := alistSet st.temp r.fid captured }

/-- The record loop of `_init_data_loop` over one source plugin's records. -/
def initDataLoop (loaded : List Nat) (fidAttrs recAttrs : List String)
    (st : ScanState) (rs : List Rec) : ScanState :=
  rs.foldl (scanRecord loaded fidAttrs recAttrs) st

/-! ### `_APreserver._inner_loop` (preservers.py:289-308) -/

/-- Application of all of the delta map's attributes for one FormID
(the `loop_setattr` loop). -/
def applyAttrs (r : Rec) (attrs : AttrMap) : Rec :=
  { r with attrs := attrs.foldl (fun a p => alistSet a p.1 p.2) r.attrs }

/-- One iteration of `_inner_loop`: skip records absent from `id_data`; skip
(without keeping) records all of whose delta attributes already match;
otherwise apply every delta attribute, call `keep` and bump the per-type
counter.  The accumulator is (records so far, keep calls, type counter). -/
def innerLoopStep (idd : IdData) (acc : List Rec × List FormID × Nat)
    (r : Rec) : List Rec × List FormID × Nat :=
  match alistGet? idd r.fid with
  | none => (acc.1 ++ [r], acc.2.1, acc.2.2)
  | some attrs =>
    if attrs.all (fun p => getAttr? r p.1 == some p.2) then
      (acc.1 ++ [r], acc.2.1, acc.2.2)
    else
      (acc.1 ++ [applyAttrs r attrs], acc.2.1 ++ [r.fid], acc.2.2 + 1)

/-- The `_inner_loop` over the build candidates of one record type. -/
def innerLoop (idd : IdData) (rs : List Rec) :
    List Rec × List FormID × Nat :=
  rs.foldl (innerLoopStep idd) ([], [], 0)

/-! ### Claim theorems: build pass and scan skip -/

/-- C3: in the preserver build pass, a candidate whose FormID is in the delta
map is left unmodified and unkept when every delta attribute already matches;
otherwise all delta attributes are applied, the record is kept and the
per-type counter is incremented by one. -/
theorem preserver_build_pass_attr_check (idd : IdData)
    (acc : List Rec × List FormID × Nat) (r : Rec) (attrs : AttrMap)
    (h : alistGet? idd r.fid = some attrs) :
    (attrs.all (fun p => getAttr? r p.1 == some p.2) = true →
      innerLoopStep idd acc r = (acc.1 ++ [r], acc.2.1, acc.2.2)) ∧
    (attrs.all (fun p => getAttr? r p.1 == some p.2) = false →
      innerLoopStep idd acc r =
        (acc.1 ++ [applyAttrs r attrs], acc.2.1 ++ [r.fid], acc.2.2 + 1)) := by
  constructor
  · intro heq
    simp [innerLoopStep, h, heq]
  · intro hne
    simp [innerLoopStep, h, hne]

/-- Witness for C3: a matching record is skipped, a differing one is applied
and kept. -/
theorem preserver_build_pass_attr_check_witness :
    innerLoopStep [(⟨0, 7⟩, [("x", .vint 3)])] ([], [], 0)
        ⟨⟨0, 7⟩, [("x", .vint 3)]⟩ = ([⟨⟨0, 7⟩, [("x", .vint 3)]⟩], [], 0) ∧
    innerLoopStep [(⟨0, 7⟩, [("x", .vint 3)])] ([], [], 0)
        ⟨⟨0, 7⟩, [("x", .vint 4)]⟩ =
      ([⟨⟨0, 7⟩, [("x", .vint 3)]⟩], [⟨0, 7⟩], 1) := by
  have h1 := (preserver_build_pass_attr_check
    [(⟨0, 7⟩, [("x", .vint 3)])] ([], [], 0)
    ⟨⟨0, 7⟩, [("x", .vint 3)]⟩ [("x", .vint 3)] (by decide)).1 (by decide)
  have h2 := (preserver_build_pass_attr_check
    [(⟨0, 7⟩, [("x", .vint 3)])] ([], [], 0)
    ⟨⟨0, 7⟩, [("x", .vint 4)]⟩ [("x", .vint 3)] (by decide)).2 (by decide)
  rw [h1, h2]
  constructor <;> decide

/-- C4: in `_init_data_loop`, a record one of whose FormID-valued attributes
references a file that is absent from the load order (owner `None` or not in
the loaded set) is dropped — the temporary capture is unchanged, the
per-source skip counter is incremented by one — and the loop continues with
the remaining records. -/
theorem preserver_scan_skips_missing_master (loaded : List Nat)
    (fidAttrs recAttrs : List String) (st : ScanState) (r : Rec)
    (rest : List Rec)
    (h : (fidAttrs.map (getAttr? r)).any (badRef loaded) = true) :
    scanRecord loaded fidAttrs recAttrs st r =
      { st with skips := st.skips + 1 } ∧
    initDataLoop loaded fidAttrs recAttrs st (r :: rest) =
      initDataLoop loaded fidAttrs recAttrs
        { st with skips := st.skips + 1 } rest := by
  constructor
  · simp [scanRecord, h]
  · simp [initDataLoop, List.foldl_cons, scanRecord, h]

/-- Witness for C4: an eye reference owned by a plugin outside the loaded set
causes the record to be skipped with the counter bumped. -/
theorem preserver_scan_skips_missing_master_witness :
    (["eye"].map (getAttr? ⟨⟨2, 9⟩, [("eye", .vfid (some (some 5, 33)))]⟩)).any
        (badRef [0, 1, 2]) = true ∧
    scanRecord [0, 1, 2] ["eye"] ["eye"] ⟨[], 0⟩
        ⟨⟨2, 9⟩, [("eye", .vfid (some (some 5, 33)))]⟩ = ⟨[], 1⟩ :=
  ⟨by decide,
   (preserver_scan_skips_missing_master [0, 1, 2] ["eye"] ["eye"] ⟨[], 0⟩
      ⟨⟨2, 9⟩, [("eye", .vfid (some (some 5, 33)))]⟩ [] (by decide)).1⟩

/-! ### `_APreserver.initData` (preservers.py:191-257) -/

/-- The `ModSigMismatchError` raised during the master walk: the offending
master and the record involved. -/
structure SigErr where
  master : Nat
  recFid : FormID
deriving DecidableEq, Repr

/-- One master record of the master walk: for a record whose long fid was
captured in `temp_id_data`, promote into `id_data` each captured attribute
whose value differs from this master's value; a missing attribute on the
master's record raises `ModSigMismatchError` naming the master. -/
def walkMasterRecord (temp : IdData) (master : Nat) (idd : IdData) (r : Rec) :
    Except SigErr IdData :=
  match alistGet? temp r.fid with
  | none => .ok idd
  | some tattrs =>
    tattrs.foldlM (fun acc p =>
      match getAttr? r p.1 with
      | none => Except.error ⟨master, r.fid⟩
      | some mv =>
        if p.2 = mv then .ok acc
        else .ok (idSetAttr acc r.fid p.1 p.2)) idd

/-- The contents of one plugin as `initData` sees it: bash tags, records of
the processed signature (long fids), and the master list in order. -/
structure ModData where
  tags : List String
  recs : List Rec
  masters : List Nat
deriving Repr

/-- The known plugins, `self.patchFile.p_file_minfos`. -/
abbrev Minfs := List (Nat × ModData)

/-- Processing of one non-CSV source plugin inside `initData`: build
`temp_id_data` via `_init_data_loop`; if the plugin carries the
force-full-import tag, `id_data.update(temp_id_data)` and move on; otherwise
walk the plugin's masters in order (skipping masters not in `minfs`),
promoting attributes that differ.  Returns the new `id_data` and this
source's skip count.  `attrsFor`/`fidAttrsFor` give the attribute sets
selected by the plugin's tags (multi-tag importers). -/
def processSource (minfs : Minfs) (loaded : List Nat)
    (attrsFor fidAttrsFor : List String → List String)
    (forceTag : Option String) (idd : IdData) (srcName : Nat) :
    Except SigErr (IdData × Nat) :=
  match alistGet? minfs srcName with
  | none => .ok (idd, 0)
  | some srcInfo =>
    let st := initDataLoop loaded (fidAttrsFor srcInfo.tags)
      (attrsFor srcInfo.tags) ⟨[], 0⟩ srcInfo.recs
    if (forceTag.map srcInfo.tags.contains).getD false then
      .ok (dictUpdate idd st.temp, st.skips)
    else
      (srcInfo.masters.foldlM (fun acc mName =>
        match alistGet? minfs mName with
        | none => Except.ok acc
        | some mInfo => mInfo.recs.foldlM (walkMasterRecord st.temp mName) acc)
        idd).map (fun d => (d, st.skips))

/-- The source loop of `initData` over the non-CSV sources, accumulating
`id_data` and the per-source skip counters. -/
def initDataRun (minfs : Minfs) (loaded : List Nat)
    (attrsFor fidAttrsFor : List String → List String)
    (forceTag : Option String) (srcs : List Nat) :
    Except SigErr (IdData × List (Nat × Nat)) :=
  srcs.foldlM (fun acc s =>
    (processSource minfs loaded attrsFor fidAttrsFor forceTag acc.1 s).map
      (fun p => (p.1, alistSet acc.2 s p.2))) ([], [])

/-- `_process_csv_sources`: parsed CSV deltas go into `id_data` via
`dict.update`, after all plugin sources are processed. -/
def processCsvSources (idd : IdData) (csv : IdData) : IdData :=
  dictUpdate idd csv

/-- Projection of a finished run onto one (FormID, attribute) pair of the
delta map (`none` also when the run failed). -/
def runGet (x : Except SigErr (IdData × List (Nat × Nat))) (f : FormID)
    (a : String) : Option Val :=
  match x with
  | .ok p => idGetAttr? p.1 f a
  | .error _ => none

/-! ### Claim C2: baseline neutrality -/

def attrX : String := "x"

def attrY : String := "y"

/-- C2 scenario: master chain M0 (key 0) then M1 (key 1); the tagged source
(key 2) captures `x = v`; M0's version of the record holds `m0`, M1's — the
immediate baseline implied by walking the masters in order — holds `m1`. -/
def c2minfs (v m0 m1 : Val) : Minfs :=
  [(0, ⟨[], [⟨⟨0, 7⟩, [(attrX, m0)]⟩], []⟩),
   (1, ⟨[], [⟨⟨0, 7⟩, [(attrX, m1)]⟩], [0]⟩),
   (2, ⟨["Stats"], [⟨⟨0, 7⟩, [(attrX, v)]⟩], [0, 1]⟩)]

/-- The C2 run: one tagged source, no force-full-import tag, no CSV. -/
def c2run (v m0 m1 : Val) : Except SigErr (IdData × List (Nat × Nat)) :=
  initDataRun (c2minfs v m0 m1) [0, 1, 2] (fun _ => [attrX]) (fun _ => [])
    none [2]

/-- C2 counterexample: the tagged source sets `x` to `vint 2`, exactly the
value of its immediate baseline (master M1 is its last master and holds
`vint 2`), yet the (FormID, attribute) pair is present in the delta map after
`initData`, because the earlier master M0 holds `vint 1`: the master walk
compares against every master, not the inherited baseline. -/
theorem preserver_baseline_neutrality_cex :
    runGet (c2run (.vint 2) (.vint 1) (.vint 2)) ⟨0, 7⟩ attrX =
      some (.vint 2) := by decide

/-- C2 amended: a captured attribute stays out of the delta map iff its value
equals that attribute's value in every master's version of the record; any
single differing master (not only the immediate baseline) promotes it, with
the captured value. -/
theorem preserver_baseline_neutrality_amended (v m0 m1 : Val) :
    runGet (c2run v m0 m1) ⟨0, 7⟩ attrX =
      if v = m0 ∧ v = m1 then none else some v := by
  rcases eq_or_ne v m0 with h0 | h0 <;> rcases eq_or_ne v m1 with h1 | h1
  · subst h0; subst h1
    simp [c2run, c2minfs, initDataRun, processSource, initDataLoop,
      scanRecord, walkMasterRecord, runGet, idGetAttr?, idSetAttr, alistGet?,
      alistSet, getAttr?, badRef, attrX, Except.map, Except.bind,
      Except.pure, Bind.bind, Pure.pure, Except.instMonad]
  · subst h0
    simp [c2run, c2minfs, initDataRun, processSource, initDataLoop,
      scanRecord, walkMasterRecord, runGet, idGetAttr?, idSetAttr, alistGet?,
      alistSet, getAttr?, badRef, attrX, h1, Except.map, Except.bind,
      Except.pure, Bind.bind, Pure.pure, Except.instMonad]
  · subst h1
    simp [c2run, c2minfs, initDataRun, processSource, initDataLoop,
      scanRecord, walkMasterRecord, runGet, idGetAttr?, idSetAttr, alistGet?,
      alistSet, getAttr?, badRef, attrX, h0, Except.map, Except.bind,
      Except.pure, Bind.bind, Pure.pure, Except.instMonad]
  · simp [c2run, c2minfs, initDataRun, processSource, initDataLoop,
      scanRecord, walkMasterRecord, runGet, idGetAttr?, idSetAttr, alistGet?,
      alistSet, getAttr?, badRef, attrX, h0, h1, Except.map, Except.bind,
      Except.pure, Bind.bind, Pure.pure, Except.instMonad]

/-! ### Claim C1: attribute-granular last-writer-wins -/

def npcForceTag : String := "NpcFacesForceFullImport"

/-- The delta map of a finished run (empty when the run failed). -/
def runIdData (x : Except SigErr (IdData × List (Nat × Nat))) : IdData :=
  match x with
  | .ok p => p.1
  | .error _ => []

/-- C1 scenario: master M0 (key 0) holds the baseline `x = bX, y = y0`;
tagged plugin A (key 1) edits only `x` (to `aX`); the later tagged plugin B
(key 2, bash tags `btags`) edits only `y` (to `vY`) and leaves `x` at its
inherited baseline `bX`. -/
def c1minfs (btags : List String) (aX bX y0 vY : Val) : Minfs :=
  [(0, ⟨[], [⟨⟨0, 7⟩, [(attrX, bX), (attrY, y0)]⟩], []⟩),
   (1, ⟨["NPC.FaceGen"], [⟨⟨0, 7⟩, [(attrX, aX), (attrY, y0)]⟩], [0]⟩),
   (2, ⟨btags, [⟨⟨0, 7⟩, [(attrX, bX), (attrY, vY)]⟩], [0]⟩)]

/-- The C1 run over the given source list, with the force-full-import tag
configured (as for the NPC-faces preserver). -/
def c1run (btags : List String) (aX bX y0 vY : Val) (srcs : List Nat) :
    Except SigErr (IdData × List (Nat × Nat)) :=
  initDataRun (c1minfs btags aX bX y0 vY) [0, 1, 2]
    (fun _ => [attrX, attrY]) (fun _ => []) (some npcForceTag) srcs

/-- C1 counterexample: plugin A's scan promotes `x = vint 10` into the delta
map; the later plugin B carries the force-full-import tag and only edited
`y`, yet after B is processed the delta map's `x` holds B's captured baseline
value `vint 1`, not A's `vint 10`: `id_data.update(temp_id_data)` on the
bypass path replaces the whole per-FormID attribute dict, so overwriting is
record-granular there, and A's `x` does not survive as the claim states. -/
theorem preserver_attr_granularity_cex :
    runGet (c1run [npcForceTag] (.vint 10) (.vint 1) (.vint 0) (.vint 5) [1])
        ⟨0, 7⟩ attrX = some (.vint 10) ∧
    runGet (c1run [npcForceTag] (.vint 10) (.vint 1) (.vint 0) (.vint 5)
        [1, 2]) ⟨0, 7⟩ attrX = some (.vint 1) ∧
    runGet (c1run [npcForceTag] (.vint 10) (.vint 1) (.vint 0) (.vint 5)
        [1, 2]) ⟨0, 7⟩ attrY = some (.vint 5) := by decide

/-- C1 amended: for tagged sources without the force-full-import tag the
delta map is attribute-granular: after A (editing only `x`) and then B
(editing only `y`, `x` left at its inherited baseline) are processed through
the master walk, the delta map carries A's `x` and B's `y` simultaneously,
and the build pass writes both into the output record at once.  A
force-full-import source (and likewise a CSV source) instead replaces the
whole per-FormID attribute dict via `dict.update`. -/
theorem preserver_attr_granularity_amended (aX bX y0 vY : Val)
    (hx : aX ≠ bX) (hy : vY ≠ y0) :
    runGet (c1run ["NPC.Hair"] aX bX y0 vY [1, 2]) ⟨0, 7⟩ attrX = some aX ∧
    runGet (c1run ["NPC.Hair"] aX bX y0 vY [1, 2]) ⟨0, 7⟩ attrY = some vY ∧
    innerLoop (runIdData (c1run ["NPC.Hair"] aX bX y0 vY [1, 2]))
        [⟨⟨0, 7⟩, [(attrX, bX), (attrY, y0)]⟩] =
      ([⟨⟨0, 7⟩, [(attrX, aX), (attrY, vY)]⟩], [⟨0, 7⟩], 1) := by
  refine ⟨?_, ?_, ?_⟩ <;>
    simp [c1run, c1minfs, initDataRun, processSource, initDataLoop,
      scanRecord, walkMasterRecord, runGet, runIdData, idGetAttr?, idSetAttr,
      alistGet?, alistSet, getAttr?, badRef, attrX, attrY, npcForceTag,
      innerLoop, innerLoopStep, applyAttrs, hx, hy, hx.symm, hy.symm,
      Except.map, Except.bind, Except.pure, Bind.bind, Pure.pure,
      Except.instMonad]

/-- Witness for C1's amended theorem at concrete values. -/
theorem preserver_attr_granularity_amended_witness :
    runGet (c1run ["NPC.Hair"] (.vint 10) (.vint 1) (.vint 0) (.vint 5)
        [1, 2]) ⟨0, 7⟩ attrX = some (.vint 10) ∧
    runGet (c1run ["NPC.Hair"] (.vint 10) (.vint 1) (.vint 0) (.vint 5)
        [1, 2]) ⟨0, 7⟩ attrY = some (.vint 5) ∧
    innerLoop (runIdData (c1run ["NPC.Hair"] (.vint 10) (.vint 1) (.vint 0)
        (.vint 5) [1, 2]))
        [⟨⟨0, 7⟩, [(attrX, .vint 1), (attrY, .vint 0)]⟩] =
      ([⟨⟨0, 7⟩, [(attrX, .vint 10), (attrY, .vint 5)]⟩], [⟨0, 7⟩], 1) :=
  preserver_attr_granularity_amended (.vint 10) (.vint 1) (.vint 0) (.vint 5)
    (by decide) (by decide)

/-! ### Claim C5: signature mismatch is fatal per category only -/

/-- A merge category's configuration and inputs for `initData`. -/
structure Category where
  minfs : Minfs
  loaded : List Nat
  attrsFor : List String → List String
  fidAttrsFor : List String → List String
  forceTag : Option String
  srcs : List Nat

/-- One category's `initData` run. -/
def runCategory (c : Category) : Except SigErr (IdData × List (Nat × Nat)) :=
  initDataRun c.minfs c.loaded c.attrsFor c.fidAttrsFor c.forceTag c.srcs

/-- Modelled from the spec: the patch-build driver that runs each enabled
merge category in order is not under src/; per the spec's error-handling
design a type mismatch (`ModSigMismatchError`) is "fatal for that merge
category only — other categories still complete", so the driver records each
category's outcome separately and one category's failure leaves every other
category's run untouched. -/
def runCategories (cats : List Category) :
    List (Except SigErr (IdData × List (Nat × Nat))) :=
  cats.map runCategory

/-- C5 scenario: the tagged source (key 1) captures record (0,7)'s `x`; its
master M0 (key 0) holds a record with the same FormID that lacks the tracked
attribute `x` (its type does not match the expected one). -/
def c5cat : Category :=
  ⟨[(0, ⟨[], [⟨⟨0, 7⟩, [(attrY, .vint 3)]⟩], []⟩),
    (1, ⟨["Stats"], [⟨⟨0, 7⟩, [(attrX, .vint 4)]⟩], [0]⟩)],
   [0, 1], fun _ => [attrX], fun _ => [], none, [1]⟩

/-- C5: a master record with a tracked FormID but without a tracked attribute
makes the category's `initData` raise `ModSigMismatchError` naming that
master, and in the category driver only that category fails — the categories
before and after it still complete with their own results. -/
theorem preserver_sig_mismatch_per_category (pre post : List Category) :
    runCategory c5cat = .error ⟨0, ⟨0, 7⟩⟩ ∧
    runCategories (pre ++ c5cat :: post) =
      runCategories pre ++ .error ⟨0, ⟨0, 7⟩⟩ :: runCategories post := by
  constructor
  · rfl
  · simp only [runCategories, List.map_append, List.map_cons]
    rw [show runCategory c5cat = .error ⟨0, ⟨0, 7⟩⟩ from rfl]

/-! ### Weight tweaks (`multitweak_assorted.py`, `multitweak_clothes.py`) -/

/-- Modelled from the spec: `bolt.floats_equal` is code of this repository
not under src/; the float comparison used by the weight tweaks is modelled
as closeness of the rational-embedded weights up to a fixed small
tolerance. -/
def floats_equal (a b : ℚ) : Bool := decide (|a - b| < 1 / 1000000)

/-- An ALCH (potion) record as the potion-weight tweak reads it. -/
structure AlchRec where
  fid : FormID
  weight : ℚ
  obmeVer : Option Nat
  effects : List (String × Nat)
deriving DecidableEq, Repr

/-- The script-effect key `(b'SEFF', 0)` skipped by the weight tweaks. -/
def seffKey : String × Nat := ("SEFF", 0)

/-- `AAssortedTweak_PotionWeight.wants_record`: the potion is rewritten only
when `chosen_weight < weight < 1.0`, the record is not an OBME record, and
the weight is not already (float-)equal to the chosen cap. -/
def aPotionWeightWants (chosen : ℚ) (r : AlchRec) : Bool :=
  decide (chosen < r.weight) && decide (r.weight < 1) &&
    r.obmeVer == none && !(floats_equal r.weight chosen)

/-- `_PSeffWeightTweak.wants_record` composed over the potion tweak: also
skips records carrying a `SEFF` effect. -/
def potionWeightWants (chosen : ℚ) (r : AlchRec) : Bool :=
  aPotionWeightWants chosen r && r.obmeVer == none &&
    !(r.effects.contains seffKey)

/-- One iteration of `AssortedTweak_PotionWeight.buildPatch`: a wanted record
gets the chosen weight, is kept, and bumps the per-plugin counter. -/
def potionWeightStep (chosen : ℚ)
    (acc : List AlchRec × List FormID × List (Nat × Nat)) (r : AlchRec) :
    List AlchRec × List FormID × List (Nat × Nat) :=
  if potionWeightWants chosen r then
    (acc.1 ++ [{ r with weight := chosen }], acc.2.1 ++ [r.fid],
     alistSet acc.2.2 r.fid.modKey
       ((alistGet? acc.2.2 r.fid.modKey).getD 0 + 1))
  else (acc.1 ++ [r], acc.2.1, acc.2.2)

/-- `AssortedTweak_PotionWeight.buildPatch` over the patch file's potions. -/
def potionWeightBuildPatch (chosen : ℚ) (rs : List AlchRec) :
    List AlchRec × List FormID × List (Nat × Nat) :=
  rs.foldl (potionWeightStep chosen) ([], [], [])

/-- A CLOT record: weight, the biped-flags word and the not-playable flag. -/
structure ClotRec where
  fid : FormID
  weight : ℚ
  flags : Nat
  notPlayable : Bool
deriving DecidableEq, Repr

/-- `ClothesTweak.isMyType`: non-playable records are ignored; the low
sixteen flag bits must equal the tweak's type flags, or (for ring tweaks) be
a subset of them. -/
def isMyType (typeFlags : Nat) (orTypeFlags : Bool) (r : ClotRec) : Bool :=
  if r.notPlayable then false
  else
    let recTypeFlags := r.flags % 65536
    (recTypeFlags == typeFlags) ||
      (orTypeFlags && (recTypeFlags &&& typeFlags == recTypeFlags))

/-- One iteration of `ClothesTweak_MaxWeight.buildPatch`: rewrite to the cap
only when `maxWeight < weight < superWeight`. -/
def clothesMaxWeightStep (typeFlags : Nat) (orTypeFlags : Bool)
    (maxWeight superWeight : ℚ) (acc : List ClotRec × List FormID × Nat)
    (r : ClotRec) : List ClotRec × List FormID × Nat :=
  if isMyType typeFlags orTypeFlags r && decide (maxWeight < r.weight) &&
      decide (r.weight < superWeight) then
    (acc.1 ++ [{ r with weight := maxWeight }], acc.2.1 ++ [r.fid],
     acc.2.2 + 1)
  else (acc.1 ++ [r], acc.2.1, acc.2.2)

/-- `ClothesTweak_MaxWeight.buildPatch`, with the intentionally-overweight
guess `superWeight = max(10, 5 * maxWeight)`. -/
def clothesMaxWeightBuild (typeFlags : Nat) (orTypeFlags : Bool)
    (maxWeight : ℚ) (rs : List ClotRec) :
    List ClotRec × List FormID × Nat :=
  rs.foldl
    (clothesMaxWeightStep typeFlags orTypeFlags maxWeight
      (max 10 (5 * maxWeight))) ([], [], 0)

/-- C6: with the cap chosen at 0.1, a potion of weight 0.5 (not an OBME
record, no script effect) is reweighed to exactly 0.1 and kept; a potion of
weight 0.05 is left untouched and unkept. -/
theorem potion_reweigh_cap (r s : AlchRec) (hr : r.weight = 1 / 2)
    (hro : r.obmeVer = none) (hre : r.effects.contains seffKey = false)
    (hs : s.weight = 1 / 20) :
    potionWeightBuildPatch (1 / 10) [r, s] =
      ([{ r with weight := 1 / 10 }, s], [r.fid], [(r.fid.modKey, 1)]) := by
  have hre' : seffKey ∉ r.effects := by simpa using hre
  have hfe : floats_equal (1 / 2 : ℚ) (1 / 10) = false := by
    unfold floats_equal
    rw [decide_eq_false_iff_not]
    rw [show |(1 : ℚ) / 2 - 1 / 10| = 2 / 5 by
      rw [abs_of_pos] <;> norm_num]
    norm_num
  have hw : potionWeightWants (1 / 10) r = true := by
    simp [potionWeightWants, aPotionWeightWants, hr, hro, hre', hfe]
    norm_num
    exact hfe
  have hu : potionWeightWants (1 / 10) s = false := by
    simp [potionWeightWants, aPotionWeightWants, hs]
    norm_num
  simp only [potionWeightBuildPatch, List.foldl_cons, List.foldl_nil,
    potionWeightStep, hw, hu]
  simp [alistSet, alistGet?]

/-- Witness for C6 at concrete records. -/
theorem potion_reweigh_cap_witness :
    potionWeightBuildPatch (1 / 10)
        [⟨⟨3, 20⟩, 1 / 2, none, []⟩, ⟨⟨3, 21⟩, 1 / 20, none, []⟩] =
      ([⟨⟨3, 20⟩, 1 / 10, none, []⟩, ⟨⟨3, 21⟩, 1 / 20, none, []⟩],
       [⟨3, 20⟩], [(3, 1)]) :=
  potion_reweigh_cap ⟨⟨3, 20⟩, 1 / 2, none, []⟩ ⟨⟨3, 21⟩, 1 / 20, none, []⟩
    rfl rfl (by decide) rfl

/-- C9: the max-weight tweaks carry an upper cutoff: a clothing record at or
above `max(10, 5 * maxWeight)` is never rewritten or kept by the clothes
max-weight tweak, whatever its type flags; and the potion max-weight tweak
never wants (hence never rewrites or keeps) a potion weighing 1.0 or more. -/
theorem tweak_weight_upper_cutoffs (typeFlags : Nat) (orTypeFlags : Bool)
    (maxWeight chosen : ℚ) (r : ClotRec) (p : AlchRec)
    (accC : List ClotRec × List FormID × Nat)
    (accP : List AlchRec × List FormID × List (Nat × Nat))
    (hc : max 10 (5 * maxWeight) ≤ r.weight) (hp : (1 : ℚ) ≤ p.weight) :
    clothesMaxWeightStep typeFlags orTypeFlags maxWeight
        (max 10 (5 * maxWeight)) accC r = (accC.1 ++ [r], accC.2.1, accC.2.2) ∧
    potionWeightWants chosen p = false ∧
    potionWeightStep chosen accP p = (accP.1 ++ [p], accP.2.1, accP.2.2) := by
  have h1 : potionWeightWants chosen p = false := by
    simp [potionWeightWants, aPotionWeightWants, not_lt.2 hp]
  refine ⟨?_, h1, ?_⟩
  · simp [clothesMaxWeightStep, not_lt.2 hc]
  · simp [potionWeightStep, h1]

/-- Witness for C9: a 60-weight garment under a 2.0 cap (super weight 10) and
a 1.5-weight potion are both left alone. -/
theorem tweak_weight_upper_cutoffs_witness :
    clothesMaxWeightStep 4 false 2 (max 10 (5 * 2)) ([], [], 0)
        ⟨⟨0, 1⟩, 60, 4, false⟩ = ([⟨⟨0, 1⟩, 60, 4, false⟩], [], 0) ∧
    potionWeightWants (1 / 10) ⟨⟨0, 2⟩, 3 / 2, none, []⟩ = false ∧
    potionWeightStep (1 / 10) ([], [], []) ⟨⟨0, 2⟩, 3 / 2, none, []⟩ =
      ([⟨⟨0, 2⟩, 3 / 2, none, []⟩], [], []) :=
  tweak_weight_upper_cutoffs 4 false 2 (1 / 10) ⟨⟨0, 1⟩, 60, 4, false⟩
    ⟨⟨0, 2⟩, 3 / 2, none, []⟩ ([], [], 0) ([], [], [])
    (by norm_num) (by norm_num)

/-! ### `RacePatcher.buildPatch` eye-mesh filtering
(races_multitweaks.py:676-760) -/

/-- A mesh pair: the lowered right-eye and left-eye model paths. -/
abbrev Mesh := String × String

/-- A RACE record as the eye-mesh filtering pass reads it. -/
structure RaceRec where
  fid : FormID
  eid : String
  playable : Bool
  rightEye : Option String
  leftEye : Option String
  eyes : List FormID
deriving DecidableEq, Repr

/-- ASCII lowering of one character (`str.lower()` on the ASCII model
paths). -/
def asciiLower (c : Char) : Char :=
  if 65 ≤ c.toNat ∧ c.toNat ≤ 90 then Char.ofNat (c.toNat + 32) else c

/-- The embedding of Python `str.lower()` on model paths. -/
def strLower (s : String) : String := String.mk (s.data.map asciiLower)

/-- The `^117[a-zA-Z]` editor-id test that skips x117 races. -/
def is117Race (eid : String) : Bool :=
  match eid.toList with
  | '1' :: '1' :: '7' :: c :: _ => c.isAlpha
  | _ => false

/-- Grouping of a race's eyes by the mesh pair each points to (`mesh_eye`);
eyes with no recorded mesh are dropped from consideration. -/
def groupEyes (eyeMesh : List (FormID × Mesh)) (eyes : List FormID) :
    List (Mesh × List FormID) :=
  eyes.foldl (fun acc eye =>
    match alistGet? eyeMesh eye with
    | none => acc
    | some mesh =>
      match alistGet? acc mesh with
      | none => acc ++ [(mesh, [eye])]
      | some grp => alistSet acc mesh (grp ++ [eye])) []

/-- The most-populous mesh group (`sorted(..., reverse=True)[0]` with a
stable sort): the first group whose member count is maximal. -/
def maxGroup (groups : List (Mesh × List FormID)) : Option Mesh :=
  (groups.find? fun p =>
    groups.all (fun q => q.2.length ≤ p.2.length)).map (·.1)

/-- `setRaceEyeMesh`: re-point both canonical eye model paths. -/
def setRaceEyeMesh (race : RaceRec) (m : Mesh) : RaceRec :=
  { race with rightEye := some m.1, leftEye := some m.2 }

/-- The Vampire race FormID treated as playable by the pass. -/
def specialRaceFid (masterName : Nat) : FormID := ⟨masterName, 0x038010⟩

/-- The per-race body of the eye-mesh filtering loop: group the race's eyes
by mesh; with a single group, re-point the race's canonical meshes at it
when they differ; with several groups and a playable race, choose the blue
(vanilla) group if present (unless the current mesh is the argonian one),
else the argonian group, else the current mesh's own group, else the
most-populous group — and prune the race's eye list to the chosen group.
Returns the updated race and the `raceChanged` flag (`keep`). -/
def filterRaceEyes (blue argonian : Mesh) (eyeMesh : List (FormID × Mesh))
    (masterName : Nat) (race : RaceRec) : RaceRec × Bool :=
  if race.eyes = [] then (race, false)
  else
    match race.rightEye, race.leftEye with
    | some rPath, some lPath =>
      if is117Race race.eid then (race, false)
      else
        let meshEye := groupEyes eyeMesh race.eyes
        let currentMesh : Mesh := (strLower rPath, strLower lPath)
        let maxMesh := (maxGroup meshEye).getD blue
        let st1 : RaceRec × Bool :=
          if meshEye.length = 1 ∧ currentMesh ≠ maxMesh then
            (setRaceEyeMesh race maxMesh, true)
          else (race, false)
        if 1 < meshEye.length ∧
            (race.playable ∨ race.fid = specialRaceFid masterName) then
          if (alistGet? meshEye blue).isSome ∧ currentMesh ≠ argonian then
            ({ setRaceEyeMesh st1.1 blue with
               eyes := (alistGet? meshEye blue).getD [] }, true)
          else if (alistGet? meshEye argonian).isSome then
            ({ setRaceEyeMesh st1.1 argonian with
               eyes := (alistGet? meshEye argonian).getD [] }, true)
          else if (alistGet? meshEye currentMesh).isSome then
            ({ st1.1 with
               eyes := (alistGet? meshEye currentMesh).getD [] }, true)
          else
            ({ setRaceEyeMesh st1.1 maxMesh with
               eyes := (alistGet? meshEye maxMesh).getD [] }, true)
        else st1
    | _, _ => (race, false)

/-- The four hardcoded eyes given the blue mesh via `setdefault` before
filtering. -/
def eyeMeshDefaults (masterName : Nat) (eyeMesh : List (FormID × Mesh))
    (blue : Mesh) : List (FormID × Mesh) :=
  [FormID.mk masterName 0x1a, FormID.mk masterName 0x54bb9,
   FormID.mk masterName 0x54bba, FormID.mk masterName 0x5fa43].foldl
    (fun acc f =>
      if (alistGet? acc f).isSome then acc else acc ++ [(f, blue)]) eyeMesh

/-- The eye-mesh filtering pass over the patch file's RACE records: look up
the blue (vanilla) and argonian meshes (`none` is the fatal `KeyError`
path), install the defaults, then filter each race, keeping changed ones. -/
def raceEyeFilterPass (masterName : Nat) (eyeMesh0 : List (FormID × Mesh))
    (races : List RaceRec) : Option (List RaceRec × List FormID) :=
  match alistGet? eyeMesh0 (FormID.mk masterName 0x27308),
      alistGet? eyeMesh0 (FormID.mk masterName 0x3e91e) with
  | some blue, some argonian =>
    let eyeMesh := eyeMeshDefaults masterName eyeMesh0 blue
    some (races.foldl (fun acc race =>
      let fr := filterRaceEyes blue argonian eyeMesh masterName race
      (acc.1 ++ [fr.1], if fr.2 then acc.2 ++ [race.fid] else acc.2))
      ([], []))
  | _, _ => none

/-! ### Claim C7: eye-mesh consistency resolution -/

def meshA : Mesh := ("a_r.nif", "a_l.nif")

def meshBlue : Mesh := ("blue_r.nif", "blue_l.nif")

def meshArg : Mesh := ("arg_r.nif", "arg_l.nif")

def meshC : Mesh := ("c_r.nif", "c_l.nif")

def blueEyeFid : FormID := ⟨0, 0x27308⟩

def argEyeFid : FormID := ⟨0, 0x3e91e⟩

/-- C7 scenario mesh table: three of the race's eyes point at mesh pair A,
one points at the blue (vanilla default) mesh pair. -/
def c7eyeMesh : List (FormID × Mesh) :=
  [(blueEyeFid, meshBlue), (argEyeFid, meshArg),
   (⟨1, 1⟩, meshA), (⟨1, 2⟩, meshA), (⟨1, 3⟩, meshA), (⟨1, 4⟩, meshBlue)]

/-- The playable race whose canonical meshes currently point at A. -/
def c7race : RaceRec :=
  ⟨⟨1, 100⟩, "testrace", true, some meshA.1, some meshA.2,
   [⟨1, 1⟩, ⟨1, 2⟩, ⟨1, 3⟩, ⟨1, 4⟩]⟩

/-- C7 counterexample: three eyes share mesh A and a single eye carries the
blue (configured default) mesh, yet the race's canonical mesh pair is
re-assigned to the minority blue group and the three majority-A eyes are the
ones pruned — the code prefers the default group outright rather than using
it only as a tie-break for the most-populous group. -/
theorem race_eye_mesh_majority_cex :
    raceEyeFilterPass 0 c7eyeMesh [c7race] =
      some ([{ c7race with
        rightEye := some meshBlue.1,
        leftEye := some meshBlue.2,
        eyes := [⟨1, 4⟩] }], [⟨1, 100⟩]) ∧
    meshBlue ≠ meshA := by decide

/-- C7 scenario variant: the minority eye carries the argonian mesh and the
blue mesh is absent from the race's groups. -/
def c7eyeMeshArg : List (FormID × Mesh) :=
  [(blueEyeFid, meshBlue), (argEyeFid, meshArg),
   (⟨1, 1⟩, meshA), (⟨1, 2⟩, meshA), (⟨1, 3⟩, meshA), (⟨1, 4⟩, meshArg)]

/-- C7 scenario variant: the minority eye carries an unrelated mesh C, so
neither the blue nor the argonian mesh occurs among the race's groups. -/
def c7eyeMeshC : List (FormID × Mesh) :=
  [(blueEyeFid, meshBlue), (argEyeFid, meshArg),
   (⟨1, 1⟩, meshA), (⟨1, 2⟩, meshA), (⟨1, 3⟩, meshA), (⟨1, 4⟩, meshC)]

/-- The same race but with canonical meshes pointing at a pair that no eye
group carries. -/
def c7raceZ : RaceRec :=
  ⟨⟨1, 100⟩, "testrace", true, some "z_r.nif", some "z_l.nif",
   [⟨1, 1⟩, ⟨1, 2⟩, ⟨1, 3⟩, ⟨1, 4⟩]⟩

/-- C7 amended: with several mesh groups on a playable race the canonical
mesh pair is chosen by the fixed preference order blue (vanilla default)
group if present (unless the current mesh is the argonian one), else
argonian group, else the current mesh's own group, else the most-populous
group; the race's eye list is pruned to the chosen group.  The claim's
three-A-one-B scenario yields canonical A with the B eye pruned only when
neither group is the blue or argonian mesh and the current mesh is A (or in
no group at all). -/
theorem race_eye_mesh_preference_order :
    raceEyeFilterPass 0 c7eyeMesh [c7race] =
      some ([{ c7race with
        rightEye := some meshBlue.1,
        leftEye := some meshBlue.2,
        eyes := [⟨1, 4⟩] }], [⟨1, 100⟩]) ∧
    raceEyeFilterPass 0 c7eyeMeshArg [c7race] =
      some ([{ c7race with
        rightEye := some meshArg.1,
        leftEye := some meshArg.2,
        eyes := [⟨1, 4⟩] }], [⟨1, 100⟩]) ∧
    raceEyeFilterPass 0 c7eyeMeshC [c7race] =
      some ([{ c7race with eyes := [⟨1, 1⟩, ⟨1, 2⟩, ⟨1, 3⟩] }],
        [⟨1, 100⟩]) ∧
    raceEyeFilterPass 0 c7eyeMeshC [c7raceZ] =
      some ([{ c7raceZ with
        rightEye := some meshA.1,
        leftEye := some meshA.2,
        eyes := [⟨1, 1⟩, ⟨1, 2⟩, ⟨1, 3⟩] }], [⟨1, 100⟩]) := by decide

/-! ### `RacePatcher.buildPatch` NPC defaults
(races_multitweaks.py:793-821) -/

/-- An NPC record as the unassigned-eyes/hair fix-up loop reads it.  A
missing hair length is the Python-falsy `0`. -/
structure NpcRec where
  fid : FormID
  race : FormID
  female : Bool
  full : Option String
  eye : Option FormID
  hair : Option FormID
  hairLength : ℚ
deriving DecidableEq, Repr

/-- Boolean substring test on character lists (for the `reProcess` regular
expression's alternation of plain words). -/
def listPrefix : List Char → List Char → Bool
  | [], _ => true
  | _ :: _, [] => false
  | a :: as, b :: bs => a == b && listPrefix as bs

def listContainsSub (sub : List Char) : List Char → Bool
  | [] => sub.isEmpty
  | c :: cs => listPrefix sub (c :: cs) || listContainsSub sub cs

/-- The five name fragments of `reProcess`. -/
def reProcessWords : List String :=
  ["dremora", "akaos", "lathulet", "orthe", "ranyu"]

/-- `reProcess.search` (case-insensitive alternation of plain words). -/
def reProcessSearch (s : String) : Bool :=
  reProcessWords.any (fun w => listContainsSub w.data (strLower s).data)

/-- The player FormID skipped by the loop. -/
def playerFid (masterName : Nat) : FormID := ⟨masterName, 7⟩

/-- The second skip condition: a named NPC of the Vampire race whose name
does not match `reProcess`. -/
def skipDremoraCheck (masterName : Nat) (npc : NpcRec) : Bool :=
  match npc.full with
  | none => false
  | some f =>
    decide (npc.race = specialRaceFid masterName) && !(reProcessSearch f)

/-- The ambient state of the module-global `random` generator, modelled as a
stream of draws.  `RacePatcher.buildPatch(self, log, progress)` takes no
generator or seed parameter; the stream appears as an input of the model
only because purity forces the ambient interpreter state to be explicit. -/
abbrev RandState := List Nat

/-- `random.choice(seq)`: one draw indexes the sequence. -/
def randChoice (g : RandState) (xs : List FormID) :
    Option FormID × RandState :=
  (xs.get? (g.headD 0 % xs.length), g.tail)

/-- `random.random()`: one draw yields a fraction in [0, 1). -/
def randFrac (g : RandState) : ℚ × RandState :=
  (((g.headD 0 % 1000000 : Nat) : ℚ) / 1000000, g.tail)

/-- One NPC of the fix-up loop: assign a random eye, hair and hair length
where missing (keeping the record each time), drawing from the ambient
generator state.  Returns the updated NPC, the keep calls and the remaining
generator state. -/
def fixNpc (masterName : Nat)
    (finalEyes maleHair femaleHair : List (FormID × List FormID))
    (g : RandState) (npc : NpcRec) : NpcRec × List FormID × RandState :=
  if npc.fid = playerFid masterName then (npc, [], g)
  else if skipDremoraCheck masterName npc then (npc, [], g)
  else
    let raceEyes := (alistGet? finalEyes npc.race).getD []
    let s1 : NpcRec × List FormID × RandState :=
      if npc.eye = none ∧ raceEyes ≠ [] then
        let c := randChoice g raceEyes
        ({ npc with eye := c.1 }, [npc.fid], c.2)
      else (npc, [], g)
    let raceHair :=
      (alistGet? (if npc.female then femaleHair else maleHair) npc.race).getD []
    let s2 : NpcRec × List FormID × RandState :=
      if s1.1.hair = none ∧ raceHair ≠ [] then
        let c := randChoice s1.2.2 raceHair
        ({ s1.1 with hair := c.1 }, s1.2.1 ++ [npc.fid], c.2)
      else s1
    if s2.1.hairLength = 0 then
      let c := randFrac s2.2.2
      ({ s2.1 with hairLength := c.1 }, s2.2.1 ++ [npc.fid], c.2)
    else s2

/-- The C8 valid eye set for the NPC's race and the NPC lacking an eye. -/
def c8finalEyes : List (FormID × List FormID) :=
  [(⟨0, 200⟩, [⟨0, 301⟩, ⟨0, 302⟩])]

def c8npc : NpcRec := ⟨⟨2, 50⟩, ⟨0, 200⟩, false, none, none, some ⟨0, 9⟩, 1⟩

/-- C8 counterexample: `RacePatcher.buildPatch` takes no injected generator
or seed — the eye default is drawn from the module-global `random` state, so
two runs over the identical record inputs need not assign the same default:
the outcome differs between two ambient generator states. -/
theorem npc_random_defaults_cex :
    (fixNpc 0 c8finalEyes [] [] [0] c8npc).1 ≠
      (fixNpc 0 c8finalEyes [] [] [1] c8npc).1 := by decide

/-- C8 amended: the missing-eye default is drawn from the ambient
module-global generator: for a non-player, non-Vampire-named NPC without an
eye and with a nonempty valid set, the assigned eye is the valid set indexed
by the generator's next draw, one keep call is made, and one draw is
consumed — deterministic only once the ambient generator state is fixed, as
no seeded generator is injected as a parameter. -/
theorem npc_random_defaults_ambient_draw (masterName : Nat)
    (finalEyes maleHair femaleHair : List (FormID × List FormID))
    (g : RandState) (npc : NpcRec)
    (h1 : npc.fid ≠ playerFid masterName)
    (h2 : skipDremoraCheck masterName npc = false)
    (h3 : npc.eye = none)
    (h4 : (alistGet? finalEyes npc.race).getD [] ≠ [])
    (h5 : npc.hair ≠ none)
    (h6 : npc.hairLength ≠ 0) :
    fixNpc masterName finalEyes maleHair femaleHair g npc =
      ({ npc with
         eye := ((alistGet? finalEyes npc.race).getD []).get?
           (g.headD 0 % ((alistGet? finalEyes npc.race).getD []).length) },
       [npc.fid], g.tail) := by
  simp [fixNpc, randChoice, h1, h2, h3, h4, h5, h6]

/-- Witness for C8's amended theorem at a concrete ambient state. -/
theorem npc_random_defaults_ambient_draw_witness :
    fixNpc 0 c8finalEyes [] [] [3] c8npc =
      ({ c8npc with eye := some ⟨0, 302⟩ }, [⟨2, 50⟩], []) := by
  have h := npc_random_defaults_ambient_draw 0 c8finalEyes [] [] [3] c8npc
    (by decide) (by decide) (by decide) (by decide) (by decide) (by decide)
  rw [h]
  decide

/-! ### `RacePatcher.initData` spell-tag guard
(races_multitweaks.py:431-449) -/

/-- The `BoltError` raised for conflicting spell tags, naming the plugin. -/
structure BoltErr where
  modName : Nat
deriving DecidableEq, Repr

/-- One source plugin as `RacePatcher.initData` reads it: its name, bash
tags, whether it has a RACE top group, and its RACE records' FormIDs. -/
structure RaceSrc where
  name : Nat
  tags : List String
  hasRaceTop : Bool
  raceFids : List FormID
deriving Repr

def tagAddSpells : String := "R.AddSpells"

def tagChangeSpells : String := "R.ChangeSpells"

/-- The per-source head of `RacePatcher.initData`: skip sources absent from
`bosh.modInfos` or without a RACE top group; raise `BoltError` naming the
source when it carries both spell tags — before the loop over its race
records — and otherwise process the race records (the model returns their
FormIDs as the processed set). -/
def raceInitSource (modInfos : List Nat) (src : RaceSrc) :
    Except BoltErr (List FormID) :=
  if !(modInfos.contains src.name) then .ok []
  else if !src.hasRaceTop then .ok []
  else if src.tags.contains tagChangeSpells &&
      src.tags.contains tagAddSpells then
    .error ⟨src.name⟩
  else .ok src.raceFids

/-- C10: a source plugin present in the load order with a RACE group that
carries both `R.AddSpells` and `R.ChangeSpells` makes `initData` raise a
`BoltError` naming that plugin, with none of its race records processed. -/
theorem race_spell_tags_mutually_exclusive (modInfos : List Nat)
    (src : RaceSrc) (h1 : modInfos.contains src.name = true)
    (h2 : src.hasRaceTop = true)
    (h3 : src.tags.contains tagAddSpells = true)
    (h4 : src.tags.contains tagChangeSpells = true) :
    raceInitSource modInfos src = .error ⟨src.name⟩ := by
  have h1' : src.name ∈ modInfos := by simpa using h1
  have h3' : tagAddSpells ∈ src.tags := by simpa using h3
  have h4' : tagChangeSpells ∈ src.tags := by simpa using h4
  simp [raceInitSource, h1', h2, h3', h4']

/-- Witness for C10. -/
theorem race_spell_tags_mutually_exclusive_witness :
    raceInitSource [4] ⟨4, [tagAddSpells, tagChangeSpells], true,
        [⟨4, 60⟩]⟩ = .error ⟨4⟩ :=
  race_spell_tags_mutually_exclusive [4]
    ⟨4, [tagAddSpells, tagChangeSpells], true, [⟨4, 60⟩]⟩
    (by decide) (by decide) (by decide) (by decide)

end WryeBash
